import Mathlib

/-!
Shallow embedding of the yurt crate (a typed client for the aoe4guides
build-order HTTP API) and verification of its specification claims.

The embedding mirrors:
  - src/query.rs   : `Civilization`, `SortBy`, `Query`, `Query::from_parts`,
                     and the serde URL-encoding of `Query`;
  - src/types.rs   : the response schema (`BuildOrder`, `BuildOrderStep`,
                     `DetailStep`, `Timestamp`, `Status`) together with a
                     serde_json-style decoder over a JSON value type;
  - src/client.rs  : the URL strings built by `get_build` / `get_favorites`
                     and the query used by `get_build`.
-/

namespace Yurt

/-- Enumeration of available civilizations recognized by the API, mirroring
`Civilization` in src/query.rs (declaration order preserved). -/
inductive Civilization where
  | Any
  | Abb
  | Ayy
  | Byz
  | Chi
  | Del
  | Eng
  | Fre
  | Gol
  | Hol
  | Hre
  | Jap
  | Jda
  | Kte
  | Mac
  | Mal
  | Mon
  | Dra
  | Ott
  | Rus
  | Sen
  | Tug
  | Zxl
deriving DecidableEq, Repr

/-- List of every `Civilization` constructor, in declaration order. -/
def Civilization.all : List Civilization :=
  [.Any, .Abb, .Ayy, .Byz, .Chi, .Del, .Eng, .Fre, .Gol, .Hol, .Hre, .Jap,
   .Jda, .Kte, .Mac, .Mal, .Mon, .Dra, .Ott, .Rus, .Sen, .Tug, .Zxl]

/-- String produced by the `Display` impl for `Civilization` in src/query.rs. -/
def Civilization.toString : Civilization → String
  | .Any => "ANY"
  | .Abb => "ABB"
  | .Ayy => "AYY"
  | .Byz => "BYZ"
  | .Chi => "CHI"
  | .Del => "DEL"
  | .Eng => "ENG"
  | .Fre => "FRE"
  | .Gol => "GOL"
  | .Hol => "HOL"
  | .Hre => "HRE"
  | .Jap => "JAP"
  | .Jda => "JDA"
  | .Kte => "KTE"
  | .Mac => "MAC"
  | .Mal => "MAL"
  | .Mon => "MON"
  | .Dra => "DRA"
  | .Ott => "OTT"
  | .Rus => "RUS"
  | .Sen => "SEN"
  | .Tug => "TUG"
  | .Zxl => "ZXL"

/-- Available sorting criteria, mirroring `SortBy` in src/query.rs. -/
inductive SortBy where
  | Score
  | TimeCreated
  | Views
  | Likes
deriving DecidableEq, Repr

/-- String produced by the `Display` impl for `SortBy` in src/query.rs. -/
def SortBy.toString : SortBy → String
  | .Score => "score"
  | .TimeCreated => "timeCreated"
  | .Views => "views"
  | .Likes => "likes"

/-- Query parameters used when requesting build orders, mirroring the
`Query` struct in src/query.rs.  `civ` and `order_by` carry
`skip_serializing_if Option.is_none`; `overlay` carries
`skip_serializing_if is_false` and `order_by` is renamed to `orderBy`. -/
structure Query where
  civ : Option String
  order_by : Option String
  overlay : Bool
deriving DecidableEq, Repr

/-- Mirrors `Query::from_parts` in src/query.rs: skips `Any` civilizations
and converts the enums to their API string representations. -/
def Query.from_parts (civ : Civilization) (order_by : Option SortBy)
    (overlay : Bool) : Query :=
  { civ :=
      match civ with
      | .Any => none
      | other => some other.toString
    order_by := order_by.map (fun o => o.toString)
    overlay := overlay }

/-- Serde URL-encoding of a `Query` as the list of emitted
(parameter name, value) pairs, in field declaration order.  A `none`
option field is skipped, `overlay` is skipped when `false`, and a `true`
boolean serializes as the literal string "true". -/
def Query.encode (q : Query) : List (String × String) :=
  (match q.civ with
   | none => []
   | some v => [("civ", v)]) ++
  (match q.order_by with
   | none => []
   | some v => [("orderBy", v)]) ++
  (if q.overlay then [("overlay", "true")] else [])

/-- Encoded query string: parameters joined as `name=value` pairs with
ampersands.  Empty parameter list yields the empty string. -/
def Query.encodeString (q : Query) : String :=
  String.intercalate "&" (q.encode.map (fun p => p.1 ++ "=" ++ p.2))

/-! JSON values and the serde_json-style decoding of the response schema in
src/types.rs.  Numbers are modelled as integers: every input exercised by the
specification is integer-valued, and the floating-point fields of the schema
accept every JSON number, so an integer-valued model is faithful on the whole
modelled input space. -/

/-- JSON value. -/
inductive Json where
  | null
  | bool (b : Bool)
  | num (n : Int)
  | str (s : String)
  | arr (elems : List Json)
  | obj (fields : List (String × Json))

/-- Decodes a JSON string, as serde does for a Rust `String` field. -/
def decodeString : Json → Except String String
  | .str s => .ok s
  | _ => .error "invalid type: expected a string"

/-- Decodes a JSON boolean, as serde does for a Rust `bool` field. -/
def decodeBool : Json → Except String Bool
  | .bool b => .ok b
  | _ => .error "invalid type: expected a boolean"

/-- Decodes a JSON number into a Rust `i64`: integer values must lie in
the signed 64-bit range. -/
def decodeI64 : Json → Except String Int
  | .num n =>
      if -(2 ^ 63) ≤ n ∧ n < 2 ^ 63 then .ok n
      else .error "invalid value: integer out of range of i64"
  | _ => .error "invalid type: expected a number"

/-- Decodes a JSON number into a Rust `u8`: values must lie in 0..=255,
anything outside that range is a deserialization error. -/
def decodeU8 : Json → Except String Nat
  | .num n =>
      if 0 ≤ n ∧ n ≤ 255 then .ok n.toNat
      else .error "invalid value: integer out of range of u8"
  | _ => .error "invalid type: expected a number"

/-- Decodes a JSON number into a Rust `f64`: every modelled number is
accepted. -/
def decodeF64 : Json → Except String Int
  | .num n => .ok n
  | _ => .error "invalid type: expected a number"

/-- Serde handling of an `Option` field: a missing field and an explicit
null both give `none`; any other present value must decode. -/
def decodeOpt (d : Json → Except String α) : Option Json → Except String (Option α)
  | none => .ok none
  | some .null => .ok none
  | some j => Except.map some (d j)

/-- Decodes a mandatory struct field: absence fails the whole
deserialization. -/
def reqField (fs : List (String × Json)) (name : String)
    (d : Json → Except String α) : Except String α :=
  match fs.lookup name with
  | none => .error (String.append "missing field " name)
  | some j => d j

/-- Decodes an optional struct field. -/
def optField (fs : List (String × Json)) (name : String)
    (d : Json → Except String α) : Except String (Option α) :=
  decodeOpt d (fs.lookup name)

/-- Element-wise decoding of a list of JSON values: the first failing
element fails the whole list (no partial result). -/
def decodeElems (d : Json → Except String α) : List Json → Except String (List α)
  | [] => .ok []
  | j :: js => do
    let a ← d j
    let as ← decodeElems d js
    .ok (a :: as)

/-- Decodes a JSON array element-wise, as serde does for a Rust `Vec`. -/
def decodeArr (d : Json → Except String α) : Json → Except String (List α)
  | .arr xs => decodeElems d xs
  | _ => .error "invalid type: expected a sequence"

/-- Timestamp object used by the API, mirroring `Timestamp` in
src/types.rs (serde renames: `_seconds`, `_nanoseconds`). -/
structure Timestamp where
  seconds : Int
  nanoseconds : Int
deriving DecidableEq, Repr

/-- Deserialization of `Timestamp`. -/
def decodeTimestamp : Json → Except String Timestamp
  | .obj fs => do
    let s ← reqField fs "_seconds" decodeI64
    let ns ← reqField fs "_nanoseconds" decodeI64
    .ok { seconds := s, nanoseconds := ns }
  | _ => .error "invalid type: expected an object for Timestamp"

/-- Container for the actual build steps, mirroring `DetailStep` in
src/types.rs: every field is an optional string. -/
structure DetailStep where
  villagers : Option String
  builders : Option String
  food : Option String
  wood : Option String
  stone : Option String
  gold : Option String
  time : Option String
  description : Option String
deriving DecidableEq, Repr

/-- Deserialization of `DetailStep`. -/
def decodeDetailStep : Json → Except String DetailStep
  | .obj fs => do
    let villagers ← optField fs "villagers" decodeString
    let builders ← optField fs "builders" decodeString
    let food ← optField fs "food" decodeString
    let wood ← optField fs "wood" decodeString
    let stone ← optField fs "stone" decodeString
    let gold ← optField fs "gold" decodeString
    let time ← optField fs "time" decodeString
    let description ← optField fs "description" decodeString
    .ok { villagers, builders, food, wood, stone, gold, time, description }
  | _ => .error "invalid type: expected an object for DetailStep"

/-- One phase of a build order, mirroring `BuildOrderStep` in src/types.rs
(the Rust field `step_type` is renamed from the JSON key `type`, and `age`
is a `u8`). -/
structure BuildOrderStep where
  gameplan : Option String
  age : Option Nat
  step_type : Option String
  steps : Option (List DetailStep)
deriving DecidableEq, Repr

/-- Deserialization of `BuildOrderStep`. -/
def decodeBuildOrderStep : Json → Except String BuildOrderStep
  | .obj fs => do
    let gameplan ← optField fs "gameplan" decodeString
    let age ← optField fs "age" decodeU8
    let step_type ← optField fs "type" decodeString
    let steps ← optField fs "steps" (decodeArr decodeDetailStep)
    .ok { gameplan, age, step_type, steps }
  | _ => .error "invalid type: expected an object for BuildOrderStep"

/-- Complete build order as returned by the API, mirroring `BuildOrder`
in src/types.rs, with the serde renames `authorUid`, `scoreAllTime`,
`sortTitle`, `timeCreated`, `timeUpdated`, `isDraft`. -/
structure BuildOrder where
  id : Option String
  title : Option String
  description : Option String
  video : Option String
  author : Option String
  author_uid : String
  civ : Option String
  comments : Option Int
  likes : Option Int
  map : Option String
  season : Option String
  score : Int
  score_all_time : Int
  sort_title : String
  steps : List BuildOrderStep
  strategy : Option String
  time_created : Timestamp
  time_updated : Timestamp
  upvotes : Option Int
  views : Int
  is_draft : Option Bool
deriving DecidableEq, Repr

/-- Deserialization of `BuildOrder`: mandatory fields fail the whole
deserialization when absent, optional fields resolve to `none`. -/
def decodeBuildOrder : Json → Except String BuildOrder
  | .obj fs => do
    let id ← optField fs "id" decodeString
    let title ← optField fs "title" decodeString
    let description ← optField fs "description" decodeString
    let video ← optField fs "video" decodeString
    let author ← optField fs "author" decodeString
    let author_uid ← reqField fs "authorUid" decodeString
    let civ ← optField fs "civ" decodeString
    let comments ← optField fs "comments" decodeI64
    let likes ← optField fs "likes" decodeI64
    let map ← optField fs "map" decodeString
    let season ← optField fs "season" decodeString
    let score ← reqField fs "score" decodeF64
    let score_all_time ← reqField fs "scoreAllTime" decodeF64
    let sort_title ← reqField fs "sortTitle" decodeString
    let steps ← reqField fs "steps" (decodeArr decodeBuildOrderStep)
    let strategy ← optField fs "strategy" decodeString
    let time_created ← reqField fs "timeCreated" decodeTimestamp
    let time_updated ← reqField fs "timeUpdated" decodeTimestamp
    let upvotes ← optField fs "upvotes" decodeI64
    let views ← reqField fs "views" decodeI64
    let is_draft ← optField fs "isDraft" decodeBool
    .ok { id, title, description, video, author, author_uid, civ, comments,
          likes, map, season, score, score_all_time, sort_title, steps,
          strategy, time_created, time_updated, upvotes, views, is_draft }
  | _ => .error "invalid type: expected an object for BuildOrder"

/-- List of build orders returned by the API (`BuildOrders` in
src/types.rs), deserialized element-wise from a JSON array. -/
def decodeBuildOrders : Json → Except String (List BuildOrder) :=
  decodeArr decodeBuildOrder

/-! Client layer, mirroring src/client.rs. -/

/-- Base URI of the API, mirroring `BASE_URI` in src/client.rs. -/
def BASE_URI : String := "https://aoe4guides.com/api"

/-- URL string built by `OrdaClient::get_build` via `format!`: the
identifier is interpolated directly after the `/builds/` path. -/
def get_build_url (build_id : String) : String :=
  BASE_URI ++ "/builds/" ++ build_id

/-- URL string built by `OrdaClient::get_favorites` via `format!`: the
identifier is interpolated directly after the `/favorites/` path. -/
def get_favorites_url (user_id : String) : String :=
  BASE_URI ++ "/favorites/" ++ user_id

/-- Query built by `OrdaClient::get_build`: always
`Query::from_parts(Civilization::Any, None, overlay)`. -/
def get_build_query (overlay : Bool) : Query :=
  Query.from_parts .Any none overlay

/-- Kind of a reqwest error surfaced by the client: a transport failure
from `send()`, or a body-deserialization failure from `json()`. -/
inductive ErrorKind where
  | transport
  | decode
deriving DecidableEq, Repr

/-- Error value surfaced by a client call. -/
structure ClientError where
  kind : ErrorKind
  msg : String
deriving DecidableEq, Repr

/-- Models the `.json::<BuildOrder>()` step of `OrdaClient::get_build`: a
response body that fails to deserialize surfaces as a decode-kind error,
never as a transport-kind error. -/
def decodeBuildOrderResponse (body : Json) : Except ClientError BuildOrder :=
  match decodeBuildOrder body with
  | .ok b => .ok b
  | .error e => .error { kind := .decode, msg := e }

/-- Kind of the error of a failed client result, `none` on success. -/
def errKind (r : Except ClientError α) : Option ErrorKind :=
  match r with
  | .ok _ => none
  | .error e => some e.kind

/-- Success flag of a decode result. -/
def isOk (r : Except ε α) : Bool :=
  match r with
  | .ok _ => true
  | .error _ => false

/-! Percent-encoding of a path segment.  Modelled from the spec: the spec
requires identifiers in path segments to be treated as untrusted input
needing percent-encoding; this is the strict RFC 3986 form in which every
character outside the unreserved set (letters, digits, hyphen, dot,
underscore, tilde) is replaced by a percent escape.  It is the comparison
point for how the code actually inserts the segment. -/

/-- RFC 3986 unreserved characters. -/
def isUnreserved (c : Char) : Bool :=
  c.isAlphanum || c = '-' || c = '.' || c = '_' || c = '~'

/-- Uppercase hexadecimal digit for a value below 16. -/
def hexDigit (n : Nat) : Char :=
  if n < 10 then Char.ofNat (48 + n) else Char.ofNat (55 + n)

/-- Percent-encoding of one character (single-byte code points, which
cover every identifier exercised here). -/
def percentEncodeChar (c : Char) : String :=
  if isUnreserved c then String.singleton c
  else String.mk ['%', hexDigit (c.toNat / 16 % 16), hexDigit (c.toNat % 16)]

/-- Modelled from the spec: percent-encoding of a whole path segment,
character by character. -/
def percentEncodeSegment (s : String) : String :=
  String.join (s.data.map percentEncodeChar)

/-! Concrete JSON fixtures used by the decoding claims. -/

/-- Mandatory fields of a build-order object, in source order: authorUid,
score, scoreAllTime, sortTitle, steps, timeCreated, timeUpdated, views. -/
def mandatoryFieldsJson : List (String × Json) :=
  [("authorUid", .str "u1"),
   ("score", .num 10),
   ("scoreAllTime", .num 20),
   ("sortTitle", .str "t"),
   ("steps", .arr []),
   ("timeCreated", .obj [("_seconds", .num 100), ("_nanoseconds", .num 5)]),
   ("timeUpdated", .obj [("_seconds", .num 200), ("_nanoseconds", .num 6)]),
   ("views", .num 7)]

/-- Build-order object carrying every mandatory field and no optional
field. -/
def minimalBuildOrderJson : Json := .obj mandatoryFieldsJson

/-- Expected decoding of `minimalBuildOrderJson`: every optional field is
an explicit `none`. -/
def minimalBuildOrder : BuildOrder :=
  { id := none, title := none, description := none, video := none,
    author := none, author_uid := "u1", civ := none, comments := none,
    likes := none, map := none, season := none, score := 10,
    score_all_time := 20, sort_title := "t", steps := [], strategy := none,
    time_created := { seconds := 100, nanoseconds := 5 },
    time_updated := { seconds := 200, nanoseconds := 6 },
    upvotes := none, views := 7, is_draft := none }

/-- Build-order object missing the mandatory `authorUid` field but
carrying every other mandatory field. -/
def missingAuthorUidJson : Json :=
  .obj (mandatoryFieldsJson.filter (fun p => decide (p.1 ≠ "authorUid")))

/-- Replaces the `steps` field of the mandatory fixture with the given
value. -/
def withSteps (steps : Json) : Json :=
  .obj ((mandatoryFieldsJson.filter (fun p => decide (p.1 ≠ "steps"))) ++
    [("steps", steps)])

/-- Build-order object whose steps array holds one well-formed element
followed by one malformed element (a number where an object is
expected). -/
def badStepListJson : Json :=
  withSteps (.arr [.obj [], .num 3])

/-- Build-order object whose single step holds a detail-step array with
one well-formed element followed by one malformed element. -/
def badDetailListJson : Json :=
  withSteps (.arr [.obj [("steps", .arr [.obj [], .str "x"])]])

/-- First detail step of the nested fixture. -/
def detailOneJson : Json :=
  .obj [("villagers", .str "6"), ("food", .str "5"),
        ("time", .str "2:30"), ("description", .str "sheep")]

/-- Second detail step of the nested fixture. -/
def detailTwoJson : Json :=
  .obj [("food", .str "7"), ("wood", .str "2"), ("time", .str "3:00")]

/-- Build-order object with one step containing two detail steps. -/
def nestedStepBuildOrderJson : Json :=
  withSteps (.arr [.obj [("gameplan", .str "open"), ("age", .num 1),
    ("type", .str "age"), ("steps", .arr [detailOneJson, detailTwoJson])]])

/-- Expected decoding of the two detail steps of the nested fixture: every
textual field is preserved verbatim. -/
def nestedDetailSteps : List DetailStep :=
  [{ villagers := some "6", builders := none, food := some "5", wood := none,
     stone := none, gold := none, time := some "2:30",
     description := some "sheep" },
   { villagers := none, builders := none, food := some "7", wood := some "2",
     stone := none, gold := none, time := some "3:00", description := none }]

/-- Expected decoding of `nestedStepBuildOrderJson`. -/
def nestedBuildOrder : BuildOrder :=
  { minimalBuildOrder with
    steps := [{ gameplan := some "open", age := some 1,
                step_type := some "age", steps := some nestedDetailSteps }] }

/-- Build-order step object whose only field is an `age` with the given
integer value. -/
def ageStepJson (n : Int) : Json := .obj [("age", .num n)]

/-- JSON array of 10 valid build-order objects. -/
def tenBuildOrdersJson : List Json := List.replicate 10 minimalBuildOrderJson

/-- Expected decoding of `tenBuildOrdersJson`. -/
def tenBuildOrders : List BuildOrder := List.replicate 10 minimalBuildOrder

instance {ε α : Type} [DecidableEq ε] [DecidableEq α] : DecidableEq (Except ε α) := fun a b =>
  match a, b with
  | .ok x, .ok y =>
      if h : x = y then .isTrue (by rw [h])
      else .isFalse (by intro hc; cases hc; exact h rfl)
  | .error x, .error y =>
      if h : x = y then .isTrue (by rw [h])
      else .isFalse (by intro hc; cases hc; exact h rfl)
  | .ok _, .error _ => .isFalse (by intro hc; cases hc)
  | .error _, .ok _ => .isFalse (by intro hc; cases hc)

instance : Fintype Civilization where
  elems := ⟨(Civilization.all : Multiset Civilization), by decide⟩
  complete := by intro c; cases c <;> decide

end Yurt

open Yurt

/-- C2 counterexample: the claim counts 23 named civilization variants
besides the `Any` sentinel, but the enumeration has 22 named variants —
23 constructors in total, `Any` included. -/
theorem c2_counterexample :
    (Civilization.all.filter (fun c => decide (c ≠ Civilization.Any))).length = 22
  ∧ (Civilization.all.filter (fun c => decide (c ≠ Civilization.Any))).length ≠ 23
  ∧ Fintype.card Civilization = 23 := by decide

/-- C2 (amended): Civilization is a closed enumeration of 22 named
variants plus the `Any` sentinel (23 constructors in total), and every
non-Any variant converts to its fixed 3-letter uppercase code, distinct
from the sentinel string, with Fre giving "FRE" and Mon giving "MON". -/
theorem c2_civilization_codes (c : Civilization) (h : c ≠ Civilization.Any) :
    Fintype.card Civilization = 23
  ∧ c.toString.length = 3
  ∧ c.toString.data.all Char.isUpper = true
  ∧ c.toString ≠ Civilization.Any.toString
  ∧ Civilization.Fre.toString = "FRE"
  ∧ Civilization.Mon.toString = "MON" := by
  cases c
  case Any => exact absurd rfl h
  all_goals decide

/-- C2 witness: the amended statement instantiated at Mon. -/
theorem c2_civilization_codes_witness :
    Civilization.Mon ≠ Civilization.Any
  ∧ (Fintype.card Civilization = 23
     ∧ Civilization.Mon.toString.length = 3
     ∧ Civilization.Mon.toString.data.all Char.isUpper = true
     ∧ Civilization.Mon.toString ≠ Civilization.Any.toString
     ∧ Civilization.Fre.toString = "FRE"
     ∧ Civilization.Mon.toString = "MON") :=
  ⟨by decide, c2_civilization_codes Civilization.Mon (by decide)⟩

/-- C7: each SortBy variant encodes to exactly its documented literal
token. -/
theorem c7_sortby_tokens :
    SortBy.Score.toString = "score"
  ∧ SortBy.TimeCreated.toString = "timeCreated"
  ∧ SortBy.Views.toString = "views"
  ∧ SortBy.Likes.toString = "likes" := by decide

/-- C3: a build-order object missing the mandatory `authorUid` field fails
deserialization with a decode-kind error (not transport-kind), and a single
malformed element in the steps array, or in a nested detail-step array,
fails the whole parent deserialization — while the same object with
well-formed fields decodes. -/
theorem c3_decode_rejection :
    errKind (decodeBuildOrderResponse missingAuthorUidJson) = some ErrorKind.decode
  ∧ errKind (decodeBuildOrderResponse missingAuthorUidJson) ≠ some ErrorKind.transport
  ∧ isOk (decodeBuildOrder badStepListJson) = false
  ∧ isOk (decodeBuildOrder badDetailListJson) = false
  ∧ isOk (decodeBuildOrder minimalBuildOrderJson) = true := by decide

/-- C4: a build-order object with every mandatory field (authorUid, score,
scoreAllTime, sortTitle, steps = [], timeCreated, timeUpdated, views) and
no optional field decodes successfully, and every optional field of the
result is an explicit `none`. -/
theorem c4_decode_tolerance :
    decodeBuildOrder minimalBuildOrderJson = .ok minimalBuildOrder
  ∧ minimalBuildOrder.id = none
  ∧ minimalBuildOrder.title = none
  ∧ minimalBuildOrder.description = none
  ∧ minimalBuildOrder.video = none
  ∧ minimalBuildOrder.author = none
  ∧ minimalBuildOrder.civ = none
  ∧ minimalBuildOrder.comments = none
  ∧ minimalBuildOrder.likes = none
  ∧ minimalBuildOrder.map = none
  ∧ minimalBuildOrder.season = none
  ∧ minimalBuildOrder.strategy = none
  ∧ minimalBuildOrder.upvotes = none
  ∧ minimalBuildOrder.is_draft = none := by decide

/-- C6: a build-order object with one step containing two detail steps
decodes with steps[0].steps of length 2, and every textual detail-step
field is preserved verbatim (food "5" and "7", time "2:30" and "3:00",
villagers "6", wood "2", description "sheep"), with no numeric coercion. -/
theorem c6_nested_step_integrity :
    decodeBuildOrder nestedStepBuildOrderJson = .ok nestedBuildOrder
  ∧ (nestedBuildOrder.steps.map (fun s => (s.steps.getD []).length)) = [2]
  ∧ (nestedBuildOrder.steps.map (fun s => s.steps)) = [some nestedDetailSteps]
  ∧ (nestedDetailSteps.map (fun d => d.food)) = [some "5", some "7"]
  ∧ (nestedDetailSteps.map (fun d => d.time)) = [some "2:30", some "3:00"]
  ∧ (nestedDetailSteps.map (fun d => d.villagers)) = [some "6", none]
  ∧ (nestedDetailSteps.map (fun d => d.wood)) = [none, some "2"]
  ∧ (nestedDetailSteps.map (fun d => d.description)) = [some "sheep", none] := by decide

/-- C1: the encoded query of `Query.from_parts` carries the `civ` key with
the 3-letter code exactly when the civilization is not `Any`, the `orderBy`
key with the sort token exactly when a criterion was supplied, the
`overlay` key with literal "true" exactly when the flag is true, carries
no other key, and for (Any, none, false) the encoded query string is
empty. -/
theorem c1_query_omits_defaults (c : Civilization) (o : Option SortBy) (b : Bool) :
    ((Query.from_parts c o b).encode.lookup "civ"
       = match c with
         | .Any => none
         | _ => some c.toString)
  ∧ ((Query.from_parts c o b).encode.lookup "orderBy" = o.map SortBy.toString)
  ∧ ((Query.from_parts c o b).encode.lookup "overlay"
       = if b then some "true" else none)
  ∧ ((Query.from_parts c o b).encode.all
       (fun p => p.1 == "civ" || p.1 == "orderBy" || p.1 == "overlay")) = true
  ∧ (Query.from_parts .Any none false).encodeString = "" := by
  rcases o with _ | s
  · cases c <;> cases b <;> decide
  · cases s <;> cases c <;> cases b <;> decide

/-- C8: the query built by `get_build` fixes the civilization to `Any` and
the sort criterion to none, so its encoding is exactly the overlay pair
when the flag is true and empty otherwise; `civ` and `orderBy` never
appear. -/
theorem c8_get_build_query (overlay : Bool) :
    (get_build_query overlay).encode = (if overlay then [("overlay", "true")] else [])
  ∧ (get_build_query overlay).encode.lookup "civ" = none
  ∧ (get_build_query overlay).encode.lookup "orderBy" = none := by
  cases overlay <;> decide

/-- C10: the optional `age` field of a build-order step is decoded as an
unsigned 8-bit integer: an integer age decodes successfully (to that
value) exactly when it lies in 0..255 — values 5 through 255 are accepted
without any further range check — and deserialization of the step fails
exactly when the age is negative or exceeds 255. -/
theorem c10_age_u8_range (n : Int) :
    (decodeBuildOrderStep (ageStepJson n)
       = .ok { gameplan := none, age := some n.toNat, step_type := none,
               steps := none }
     ↔ (0 ≤ n ∧ n ≤ 255))
  ∧ (isOk (decodeBuildOrderStep (ageStepJson n)) = false ↔ (n < 0 ∨ 255 < n)) := by
  by_cases h : 0 ≤ n ∧ n ≤ 255
  · refine ⟨?_, ?_⟩ <;>
      simp [decodeBuildOrderStep, ageStepJson, optField, decodeOpt, decodeU8,
        isOk, h, List.lookup, Except.map, Bind.bind, Except.bind]
  · refine ⟨?_, ?_⟩ <;>
      simp [decodeBuildOrderStep, ageStepJson, optField, decodeOpt, decodeU8,
        isOk, h, List.lookup, Except.map, Bind.bind, Except.bind]
    omega

/-- Element-wise decoding relates input and output lists pointwise, in
order. -/
theorem decodeElems_ok_forall₂ {α : Type} (d : Json → Except String α) :
    ∀ (xs : List Json) (ys : List α), decodeElems d xs = .ok ys →
      List.Forall₂ (fun j a => d j = .ok a) xs ys := by
  intro xs
  induction xs with
  | nil =>
    intro ys h
    simp only [decodeElems] at h
    cases h
    exact List.Forall₂.nil
  | cons j js ih =>
    intro ys h
    simp only [decodeElems, bind, Except.bind] at h
    cases hd : d j with
    | error e => rw [hd] at h; cases h
    | ok a =>
      rw [hd] at h
      cases he : decodeElems d js with
      | error e => rw [he] at h; cases h
      | ok as =>
        rw [he] at h
        cases h
        exact List.Forall₂.cons hd (ih as he)

/-- C9: decoding a JSON array of build-order objects yields exactly one
BuildOrder per source element, in source order: the output length equals
the input length and the lists correspond pointwise (no truncation,
reordering, or filtering). -/
theorem c9_list_cardinality (xs : List Json) (ys : List BuildOrder)
    (h : decodeBuildOrders (.arr xs) = .ok ys) :
    ys.length = xs.length
  ∧ List.Forall₂ (fun j b => decodeBuildOrder j = .ok b) xs ys := by
  have h2 : decodeElems decodeBuildOrder xs = .ok ys := h
  have hf := decodeElems_ok_forall₂ decodeBuildOrder xs ys h2
  exact ⟨hf.length_eq.symm, hf⟩

/-- C9 witness: the statement instantiated at a concrete array of 10 valid
build-order objects. -/
theorem c9_list_cardinality_witness :
    decodeBuildOrders (.arr tenBuildOrdersJson) = .ok tenBuildOrders
  ∧ tenBuildOrders.length = tenBuildOrdersJson.length
  ∧ tenBuildOrdersJson.length = 10 :=
  ⟨by decide,
   (c9_list_cardinality tenBuildOrdersJson tenBuildOrders (by decide)).1,
   by decide⟩

/-- C5 counterexample: for the identifier "a?b" the URL built by
`get_build` is the verbatim interpolation, which differs from the
percent-encoded insertion "a%3Fb" that the claim asserts. -/
theorem c5_counterexample :
    get_build_url "a?b" ≠ BASE_URI ++ "/builds/" ++ percentEncodeSegment "a?b"
  ∧ get_build_url "a?b" = "https://aoe4guides.com/api/builds/a?b"
  ∧ percentEncodeSegment "a?b" = "a%3Fb" := by decide

/-- C5 (amended): `get_build` and `get_favorites` insert the identifier
into the request URL verbatim, with no percent-encoding applied by the
client; the built URL coincides with the percent-encoded insertion exactly
when the identifier is unchanged by percent-encoding. -/
theorem c5_path_segments_verbatim (build_id user_id : String) :
    get_build_url build_id = BASE_URI ++ "/builds/" ++ build_id
  ∧ get_favorites_url user_id = BASE_URI ++ "/favorites/" ++ user_id
  ∧ (get_build_url build_id
       = BASE_URI ++ "/builds/" ++ percentEncodeSegment build_id
     ↔ percentEncodeSegment build_id = build_id)
  ∧ (get_favorites_url user_id
       = BASE_URI ++ "/favorites/" ++ percentEncodeSegment user_id
     ↔ percentEncodeSegment user_id = user_id) := by
  refine ⟨rfl, rfl, ?_, ?_⟩ <;> constructor
  · intro h
    have hd := congrArg String.data h
    simp only [get_build_url, String.data_append] at hd
    exact (String.ext (List.append_cancel_left hd)).symm
  · intro h
    show BASE_URI ++ "/builds/" ++ build_id = _
    rw [h]
  · intro h
    have hd := congrArg String.data h
    simp only [get_favorites_url, String.data_append] at hd
    exact (String.ext (List.append_cancel_left hd)).symm
  · intro h
    show BASE_URI ++ "/favorites/" ++ user_id = _
    rw [h]
